import Mathlib

/-!
Shallow embedding of the inventory / service-order core of the maintenance
web application (Express + SQLite, file server.js with the belt module).
SQLite tables become lists of row records, the shared database becomes an
explicit Store value, and each modelled route handler becomes a function
from the Store (plus the parsed request data) to a result and a new Store.
Timestamps are the strings SQLite CURRENT_TIMESTAMP produces; the helpers
receive the current timestamp as an argument.
-/

namespace Manutencao

/-- Row of the correias table: id, nome, modelo, medida, quantidade.
The created_at column is omitted: no modelled operation reads it.
Ids come from INTEGER PRIMARY KEY AUTOINCREMENT and are therefore ≥ 1
in every reachable database. -/
structure Correia where
  id : Int
  nome : String
  modelo : String
  medida : String
  quantidade : Int
deriving Repr, DecidableEq

/-- Row of the equipamentos table, restricted to the columns the modelled
operations read (id and nome; codigo, local, descricao, imagem and
created_at are never read by the modelled routes). -/
structure Equipamento where
  id : Int
  nome : String
deriving Repr, DecidableEq

/-- Row of the consumo_correias table; data is the timestamp string
written by CURRENT_TIMESTAMP. -/
structure Consumo where
  equipamento_id : Int
  correia_id : Int
  quantidade : Int
  data : String
deriving Repr, DecidableEq

/-- Row of the correias_equipamentos association table. -/
structure Assoc where
  equipamento_id : Int
  correia_id : Int
  quantidade_usada : Int
deriving Repr, DecidableEq

/-- Row of the ordens table. equipamento_id stores the form value after the
handler normalisation (falsy becomes NULL), hence an Option String;
fechada_em and resultado are NULL until the order is closed. -/
structure Ordem where
  id : Int
  equipamento_id : Option String
  solicitante : String
  tipo : String
  descricao : String
  status : String
  aberta_em : String
  fechada_em : Option String
  resultado : Option String
deriving Repr, DecidableEq

/-- The SQLite database state read and written by the modelled routes. -/
structure Store where
  equipamentos : List Equipamento
  correias : List Correia
  assocs : List Assoc
  consumo : List Consumo
  ordens : List Ordem
deriving Repr, DecidableEq

/-- db.get of SELECT * FROM correias WHERE id = ? : the first matching row. -/
def lookupCorreia (s : Store) (cid : Int) : Option Correia :=
  s.correias.find? (fun c => decide (c.id = cid))

/-- Helper registrarConsumoCorreia: runs UPDATE correias SET quantidade =
quantidade - ? WHERE id = ? and then INSERT INTO consumo_correias
(equipamento_id, correia_id, quantidade) VALUES (?, ?, ?); the data column
gets CURRENT_TIMESTAMP, passed here as now. -/
def registrarConsumoCorreia (s : Store) (equipamento_id correia_id quantidade : Int)
    (now : String) : Store :=
  { s with
    correias := s.correias.map (fun c =>
      if c.id = correia_id then { c with quantidade := c.quantidade - quantidade } else c),
    consumo := s.consumo ++ [⟨equipamento_id, correia_id, quantidade, now⟩] }

/-- Outcome of POST /equipamentos/:id/baixar-correia. The three error
constructors stand for the literal response pages Quantidade invalida,
Correia nao encontrada and Estoque insuficiente; ok stands for the
success redirect to the equipment page. -/
inductive DebitResult where
  | invalidQuantity
  | partNotFound
  | insufficientStock
  | ok
deriving Repr, DecidableEq

/-- POST /equipamentos/:id/baixar-correia. correia_id and quantidade are
the parseInt results of the form fields. The JS guard
(!correia_id || !quantidade || quantidade <= 0) rejects a zero correia_id
and a zero or non-positive quantidade; it is kept verbatim here.
equipamento_id is taken from the URL and never checked against the
equipamentos table. -/
def baixarCorreia (s : Store) (equipamento_id correia_id quantidade : Int)
    (now : String) : DebitResult × Store :=
  if correia_id = 0 ∨ quantidade = 0 ∨ quantidade ≤ 0 then (.invalidQuantity, s)
  else
    match lookupCorreia s correia_id with
    | none => (.partNotFound, s)
    | some c =>
      if c.quantidade < quantidade then (.insufficientStock, s)
      else (.ok, registrarConsumoCorreia s equipamento_id correia_id quantidade now)

/-- POST /correias/novo: INSERT INTO correias (nome, modelo, medida,
quantidade) VALUES (?, ?, ?, ?) where quantidade is parseInt of the form
field (or 0); newId is the AUTOINCREMENT id of the new row. -/
def criarCorreia (s : Store) (newId : Int) (nome modelo medida : String)
    (quantidade : Int) : Store :=
  { s with correias := s.correias ++ [⟨newId, nome, modelo, medida, quantidade⟩] }

/-- POST /correias/:id/editar: UPDATE correias SET nome=?, modelo=?,
medida=?, quantidade=? WHERE id=?. quantidade is parseInt of the form
field (or 0) and may be any integer, including a negative one; no check
constrains it. Only the correias table is touched. -/
def editarCorreia (s : Store) (cid : Int) (nome modelo medida : String)
    (quantidade : Int) : Store :=
  { s with correias := s.correias.map (fun c =>
      if c.id = cid then ⟨c.id, nome, modelo, medida, quantidade⟩ else c) }

/-- POST /equipamentos/:id/correias: DELETE FROM correias_equipamentos
WHERE equipamento_id = ?, then one INSERT per submitted correia id with its
submitted default-usage quantity (parseInt of the qtd field, defaulting to
1). pares lists the submitted (correia_id, quantidade_usada) pairs in form
order. -/
def salvarAssociacoes (s : Store) (equipamento_id : Int)
    (pares : List (Int × Int)) : Store :=
  { s with assocs :=
      s.assocs.filter (fun a => !decide (a.equipamento_id = equipamento_id))
        ++ pares.map (fun par => ⟨equipamento_id, par.1, par.2⟩) }

/-- Result of POST /ordens/:id/fechar. The handler has a single non-error
path: it runs the UPDATE unconditionally and redirects to /ordens. It
contains no order-exists check and no status check. -/
inductive CloseResult where
  | ok
deriving Repr, DecidableEq

/-- POST /ordens/:id/fechar (identical in both server variants): UPDATE
ordens SET status=fechada, resultado=?, fechada_em=CURRENT_TIMESTAMP WHERE
id=?. A matching row is overwritten whatever its current status; with no
matching row the update affects zero rows and the handler still
redirects. -/
def fecharOrdem (s : Store) (oid : Int) (resultado : String) (now : String) :
    CloseResult × Store :=
  (CloseResult.ok,
    { s with ordens := s.ordens.map (fun o =>
        if o.id = oid then
          { o with status := "fechada", resultado := some resultado,
                   fechada_em := some now }
        else o) })

/-- JS truthiness of the submitted equipamento_id form value: an absent
field and the empty string are falsy; every other string is truthy. -/
def truthyStr : Option String → Bool
  | none => false
  | some v => !decide (v = "")

/-- POST /ordens (identical in both server variants): INSERT INTO ordens
(equipamento_id, solicitante, tipo, descricao, status) VALUES
(?, ?, ?, ?, aberta), binding the JS expression (equipamento_id or null):
a falsy form value is stored as NULL. newId is the AUTOINCREMENT id, now
the CURRENT_TIMESTAMP default of aberta_em; fechada_em and resultado
start NULL. -/
def criarOrdem (s : Store) (newId : Int) (equipamento_id : Option String)
    (solicitante tipo descricao : String) (now : String) : Store :=
  { s with ordens := s.ordens ++
      [⟨newId, if truthyStr equipamento_id then equipamento_id else none,
        solicitante, tipo, descricao, "aberta", now, none, none⟩] }

/-- One call of POST /equipamentos/:id/baixar-correia inside a request
sequence: URL equipment id, parsed form part id and quantity, and the
timestamp the server would write. -/
structure DebitOp where
  equipamento : Int
  correia : Int
  quantidade : Int
  data : String
deriving Repr, DecidableEq

/-- Run a sequence of debit requests left to right. -/
def runDebits : Store → List DebitOp → Store
  | s, [] => s
  | s, op :: rest =>
      runDebits (baixarCorreia s op.equipamento op.correia op.quantidade op.data).2 rest

/-- Total quantity of the successful debits against part p in a request
sequence starting from store s. -/
def debitadoCom : Store → Int → List DebitOp → Int
  | _, _, [] => 0
  | s, p, op :: rest =>
      (if (baixarCorreia s op.equipamento op.correia op.quantidade op.data).1
            = DebitResult.ok ∧ op.correia = p
        then op.quantidade else 0)
        + debitadoCom (baixarCorreia s op.equipamento op.correia op.quantidade op.data).2
            p rest

/-- strftime of %Y-%m applied to a CURRENT_TIMESTAMP string
(YYYY-MM-DD HH:MM:SS): its first seven characters. -/
def monthOf (data : String) : String := data.take 7

/-- The SELECT alias equipamento: LEFT JOIN equipamentos e ON e.id =
cc.equipamento_id, reading e.nome (NULL when no row matches). -/
def nomeEquipamento (s : Store) (eid : Int) : Option String :=
  (s.equipamentos.find? (fun e => decide (e.id = eid))).map (fun e => e.nome)

/-- The SELECT alias correia: LEFT JOIN correias c ON c.id =
cc.correia_id, reading c.nome (NULL when no row matches). -/
def nomeCorreia (s : Store) (cid : Int) : Option String :=
  (s.correias.find? (fun c => decide (c.id = cid))).map (fun c => c.nome)

/-- The GROUP BY key of the monthly report: the pair of SELECT aliases
(equipamento, correia), i.e. the two left-joined display names. -/
def reportKey (s : Store) (r : Consumo) : Option String × Option String :=
  (nomeEquipamento s r.equipamento_id, nomeCorreia s r.correia_id)

/-- SQLite ascending comparison on a nullable text column: NULL sorts
before every string. -/
def optLeB : Option String → Option String → Bool
  | none, _ => true
  | some _, none => false
  | some a, some b => decide (a ≤ b)

/-- Strict version of optLeB. -/
def optLtB : Option String → Option String → Bool
  | none, none => false
  | none, some _ => true
  | some _, none => false
  | some a, some b => decide (a < b)

/-- ORDER BY equipamento, correia: lexicographic order on the pair of
aliases, NULLs first as in SQLite. -/
def keyLe (a b : Option String × Option String) : Prop :=
  optLtB a.1 b.1 = true ∨ (a.1 = b.1 ∧ optLeB a.2 b.2 = true)

instance : DecidableRel keyLe := fun a b => by
  unfold keyLe
  infer_instance

instance : IsTotal (Option String × Option String) keyLe where
  total := by
    intro a b
    rcases a with ⟨a1, a2⟩
    rcases b with ⟨b1, b2⟩
    by_cases h : a1 = b1
    · subst h
      have htot : optLeB a2 b2 = true ∨ optLeB b2 a2 = true := by
        rcases a2 with _ | x <;> rcases b2 with _ | y
        · exact Or.inl rfl
        · exact Or.inl rfl
        · exact Or.inr rfl
        · rcases le_total x y with h2 | h2
          · exact Or.inl (decide_eq_true h2)
          · exact Or.inr (decide_eq_true h2)
      rcases htot with h2 | h2
      · exact Or.inl (Or.inr ⟨rfl, h2⟩)
      · exact Or.inr (Or.inr ⟨rfl, h2⟩)
    · have hlt : optLtB a1 b1 = true ∨ optLtB b1 a1 = true := by
        rcases a1 with _ | x <;> rcases b1 with _ | y
        · exact absurd rfl h
        · exact Or.inl rfl
        · exact Or.inr rfl
        · have hxy : ¬ x = y := fun hh => h (by rw [hh])
          rcases lt_or_gt_of_ne hxy with h2 | h2
          · exact Or.inl (decide_eq_true h2)
          · exact Or.inr (decide_eq_true h2)
      rcases hlt with h2 | h2
      · exact Or.inl (Or.inl h2)
      · exact Or.inr (Or.inl h2)

instance : IsTrans (Option String × Option String) keyLe where
  trans := by
    have ltTrans : ∀ u v w : Option String,
        optLtB u v = true → optLtB v w = true → optLtB u w = true := by
      intro u v w huv hvw
      rcases u with _ | x <;> rcases v with _ | y <;> rcases w with _ | z
      · simp [optLtB] at huv
      · simp [optLtB] at huv
      · simp [optLtB] at hvw
      · rfl
      · simp [optLtB] at huv
      · simp [optLtB] at huv
      · simp [optLtB] at hvw
      · exact decide_eq_true (lt_trans (of_decide_eq_true huv) (of_decide_eq_true hvw))
    have leTrans : ∀ u v w : Option String,
        optLeB u v = true → optLeB v w = true → optLeB u w = true := by
      intro u v w huv hvw
      rcases u with _ | x
      · rfl
      · rcases v with _ | y
        · simp [optLeB] at huv
        · rcases w with _ | z
          · simp [optLeB] at hvw
          · exact decide_eq_true (le_trans (of_decide_eq_true huv) (of_decide_eq_true hvw))
    intro a b c hab hbc
    rcases hab with h1 | ⟨he1, h1⟩ <;> rcases hbc with h2 | ⟨he2, h2⟩
    · exact Or.inl (ltTrans _ _ _ h1 h2)
    · exact Or.inl (he2 ▸ h1)
    · exact Or.inl (he1 ▸ h2)
    · exact Or.inr ⟨he1.trans he2, leTrans _ _ _ h1 h2⟩

/-- Sum of the quantidade column over consumption rows: SUM(cc.quantidade). -/
def sumQuantidade : List Consumo → Int
  | [] => 0
  | r :: rest => r.quantidade + sumQuantidade rest

/-- One output row of GET /correias/relatorio. -/
structure RelRow where
  equipamento : Option String
  correia : Option String
  total : Int
deriving Repr, DecidableEq

/-- GET /correias/relatorio?mes=YYYY-MM: restrict consumo_correias to the
requested month, group by the (equipamento, correia) name aliases, sum
each group, and order by the aliases. A pure read of the store. -/
def relatorioMensal (s : Store) (mes : String) : List RelRow :=
  let recs := s.consumo.filter (fun r => decide (monthOf r.data = mes))
  let keys := (recs.map (fun r => reportKey s r)).dedup
  (List.insertionSort keyLe keys).map (fun k =>
    ⟨k.1, k.2, sumQuantidade (recs.filter (fun r => decide (reportKey s r = k)))⟩)

/-- Concrete store for witnesses around the debit operation: one part with
ten units in stock, no equipment rows at all. -/
def exStoreDebit : Store :=
  { equipamentos := []
    correias := [⟨1, "Correia A", "M1", "50cm", 10⟩]
    assocs := []
    consumo := []
    ordens := [] }

/-- Concrete store with association rows for two equipments. -/
def exStoreAssoc : Store :=
  { equipamentos := [⟨1, "Moinho"⟩, ⟨2, "Esteira"⟩]
    correias := []
    assocs := [⟨1, 5, 1⟩, ⟨2, 5, 2⟩]
    consumo := []
    ordens := [] }

/-- Concrete store with a single already-closed order. -/
def exStoreClosed : Store :=
  { equipamentos := []
    correias := []
    assocs := []
    consumo := []
    ordens := [⟨1, none, "Maria", "corretiva", "barulho no motor", "fechada",
      "2024-01-01 09:00:00", some "2024-01-02 09:00:00", some "troca de correia"⟩] }

/-- Concrete store for the report claims: two equipment rows sharing the
display name Prensa, one belt, one January consumption row for each
equipment and one February row. -/
def exStoreReport : Store :=
  { equipamentos := [⟨1, "Prensa"⟩, ⟨2, "Prensa"⟩]
    correias := [⟨1, "Correia A", "M1", "50cm", 10⟩]
    assocs := []
    consumo := [⟨1, 1, 2, "2024-01-05 10:00:00"⟩, ⟨2, 1, 3, "2024-01-20 11:00:00"⟩,
                ⟨1, 1, 7, "2024-02-01 09:00:00"⟩]
    ordens := [] }

/-- find? by id commutes with the conditional per-row stock update, because
the update never changes the id column. -/
theorem find?_map_update (l : List Correia) (cid q pid : Int) :
    (l.map (fun c =>
        if c.id = cid then { c with quantidade := c.quantidade - q } else c)).find?
        (fun c => decide (c.id = pid))
      = (l.find? (fun c => decide (c.id = pid))).map (fun c =>
          if c.id = cid then { c with quantidade := c.quantidade - q } else c) := by
  rw [List.find?_map]
  have hpf : ((fun (c : Correia) => decide (c.id = pid))
        ∘ (fun (c : Correia) =>
            if c.id = cid then { c with quantidade := c.quantidade - q } else c))
      = (fun (c : Correia) => decide (c.id = pid)) := by
    funext c
    by_cases h : c.id = cid
    · rw [Function.comp_apply, if_pos h]
    · rw [Function.comp_apply, if_neg h]
  rw [hpf]

/-- registrarConsumoCorreia transforms the row a lookup returns pointwise. -/
theorem lookupCorreia_registrar (s : Store) (e cid q : Int) (now : String) (pid : Int) :
    lookupCorreia (registrarConsumoCorreia s e cid q now) pid
      = (lookupCorreia s pid).map (fun c =>
          if c.id = cid then { c with quantidade := c.quantidade - q } else c) := by
  unfold lookupCorreia registrarConsumoCorreia
  exact find?_map_update s.correias cid q pid

/-- A row found by id carries that id. -/
theorem lookupCorreia_id (s : Store) (pid : Int) (c : Correia)
    (h : lookupCorreia s pid = some c) : c.id = pid := by
  unfold lookupCorreia at h
  have hc := @List.find?_some Correia (fun c => decide (c.id = pid)) c s.correias h
  exact of_decide_eq_true hc

/-- C1: with a positive quantity, an existing part (AUTOINCREMENT ids are
positive, hence 0 < p) and sufficient stock, the debit succeeds, the stock
of that part drops by exactly q, and exactly one new consumption record
(equipment e, part p, quantity q) is appended; both effects are in the one
returned store. -/
theorem C1_debit_success (s : Store) (e p q : Int) (now : String) (c : Correia)
    (hp : 0 < p) (hq : 0 < q) (hfind : lookupCorreia s p = some c)
    (hstock : q ≤ c.quantidade) :
    (baixarCorreia s e p q now).1 = DebitResult.ok ∧
    lookupCorreia (baixarCorreia s e p q now).2 p
      = some { c with quantidade := c.quantidade - q } ∧
    (baixarCorreia s e p q now).2.consumo = s.consumo ++ [⟨e, p, q, now⟩] := by
  have hguard : ¬ (p = 0 ∨ q = 0 ∨ q ≤ 0) := by
    push_neg
    refine ⟨by omega, by omega, by omega⟩
  have hstock2 : ¬ c.quantidade < q := not_lt.mpr hstock
  simp only [baixarCorreia, if_neg hguard, hfind, if_neg hstock2]
  refine ⟨trivial, ?_, ?_⟩
  · rw [lookupCorreia_registrar, hfind]
    simp [lookupCorreia_id s p c hfind]
  · simp [registrarConsumoCorreia]

/-- Witness for C1 on the concrete store: debit three units of part 1 for
equipment 7. -/
theorem C1_debit_success_witness :
    (baixarCorreia exStoreDebit 7 1 3 "2024-01-05 10:00:00").1 = DebitResult.ok ∧
    lookupCorreia (baixarCorreia exStoreDebit 7 1 3 "2024-01-05 10:00:00").2 1
      = some ⟨1, "Correia A", "M1", "50cm", 7⟩ ∧
    (baixarCorreia exStoreDebit 7 1 3 "2024-01-05 10:00:00").2.consumo
      = exStoreDebit.consumo ++ [⟨7, 1, 3, "2024-01-05 10:00:00"⟩] :=
  C1_debit_success exStoreDebit 7 1 3 "2024-01-05 10:00:00"
    ⟨1, "Correia A", "M1", "50cm", 10⟩ (by decide) (by decide) (by decide) (by decide)

/-- With a positive quantity, an existing part with positive id and
sufficient stock, the debit handler takes the success branch. -/
theorem baixar_ok (s : Store) (e p q : Int) (now : String) (c : Correia)
    (hp : 0 < p) (hq : 0 < q) (hfind : lookupCorreia s p = some c)
    (hstock : q ≤ c.quantidade) :
    baixarCorreia s e p q now
      = (DebitResult.ok, registrarConsumoCorreia s e p q now) := by
  have hguard : ¬ (p = 0 ∨ q = 0 ∨ q ≤ 0) := by
    push_neg
    refine ⟨by omega, by omega, by omega⟩
  have hstock2 : ¬ c.quantidade < q := not_lt.mpr hstock
  simp only [baixarCorreia, if_neg hguard, hfind, if_neg hstock2]

/-- C9: the debit handler never consults the equipamentos table. For any
equipment id e, in particular one matching no equipment row, debiting an
existing part with positive quantity and sufficient stock succeeds and
appends a consumption record referencing e; moreover the outcome and the
recorded history are independent of the equipamentos table. -/
theorem C9_no_equipment_check (s : Store) (e p q : Int) (now : String) (c : Correia)
    (hp : 0 < p) (hq : 0 < q) (hfind : lookupCorreia s p = some c)
    (hstock : q ≤ c.quantidade) :
    ((baixarCorreia s e p q now).1 = DebitResult.ok ∧
      (baixarCorreia s e p q now).2.consumo = s.consumo ++ [⟨e, p, q, now⟩]) ∧
    ∀ eqs : List Equipamento,
      (baixarCorreia { s with equipamentos := eqs } e p q now).1
          = (baixarCorreia s e p q now).1 ∧
      (baixarCorreia { s with equipamentos := eqs } e p q now).2.consumo
          = (baixarCorreia s e p q now).2.consumo := by
  have h1 := baixar_ok s e p q now c hp hq hfind hstock
  refine ⟨⟨by rw [h1], by rw [h1]; rfl⟩, fun eqs => ?_⟩
  have h2 := baixar_ok { s with equipamentos := eqs } e p q now c hp hq hfind hstock
  rw [h1, h2]
  exact ⟨rfl, rfl⟩

/-- Witness for C9: equipment id 42 matches no equipment row of the store
(its equipamentos table is empty), yet the debit succeeds and records
equipment 42. -/
theorem C9_no_equipment_check_witness :
    exStoreDebit.equipamentos = [] ∧
    (baixarCorreia exStoreDebit 42 1 2 "2024-03-01 08:00:00").1 = DebitResult.ok ∧
    (baixarCorreia exStoreDebit 42 1 2 "2024-03-01 08:00:00").2.consumo
      = exStoreDebit.consumo ++ [⟨42, 1, 2, "2024-03-01 08:00:00"⟩] :=
  ⟨rfl,
    (C9_no_equipment_check exStoreDebit 42 1 2 "2024-03-01 08:00:00"
      ⟨1, "Correia A", "M1", "50cm", 10⟩ (by decide) (by decide) (by decide)
      (by decide)).1.1,
    (C9_no_equipment_check exStoreDebit 42 1 2 "2024-03-01 08:00:00"
      ⟨1, "Correia A", "M1", "50cm", 10⟩ (by decide) (by decide) (by decide)
      (by decide)).1.2⟩

/-- C2 counterexample: in a store whose only part has id 1, a debit of
part id 0 (a JS-falsy id) with positive quantity 5 matches no part row,
yet the handler reports Quantidade invalida (InvalidQuantity), not
Correia nao encontrada (PartNotFound), because the falsiness guard tests
the id before the row lookup. -/
theorem C2_counterexample :
    lookupCorreia exStoreDebit 0 = none ∧ (0 : Int) < 5 ∧
    (baixarCorreia exStoreDebit 9 0 5 "2024-01-05 10:00:00").1
        = DebitResult.invalidQuantity ∧
    ¬ (baixarCorreia exStoreDebit 9 0 5 "2024-01-05 10:00:00").1
        = DebitResult.partNotFound :=
  ⟨by decide, by decide, by decide, by decide⟩

/-- C2 amended: the debit handler reports InvalidQuantity for a
non-positive quantity, PartNotFound for a nonzero part id that matches no
row (a part id of 0 is caught by the JS falsiness guard first and reported
as InvalidQuantity even when the quantity is positive), and
InsufficientStock when stock is below a positive requested quantity for an
existing part with nonzero id; in every non-ok case the returned store is
the input store, completely unchanged. -/
theorem C2_amended_errors (s : Store) (e p q : Int) (now : String) :
    (q ≤ 0 → (baixarCorreia s e p q now).1 = DebitResult.invalidQuantity) ∧
    (¬ p = 0 → 0 < q → lookupCorreia s p = none →
      (baixarCorreia s e p q now).1 = DebitResult.partNotFound) ∧
    (∀ c, ¬ p = 0 → 0 < q → lookupCorreia s p = some c → c.quantidade < q →
      (baixarCorreia s e p q now).1 = DebitResult.insufficientStock) ∧
    (¬ (baixarCorreia s e p q now).1 = DebitResult.ok →
      (baixarCorreia s e p q now).2 = s) := by
  refine ⟨?_, ?_, ?_, ?_⟩
  · intro hq
    unfold baixarCorreia
    rw [if_pos (Or.inr (Or.inr hq))]
  · intro hp hq hnone
    have hguard : ¬ (p = 0 ∨ q = 0 ∨ q ≤ 0) := by
      push_neg
      refine ⟨hp, by omega, by omega⟩
    unfold baixarCorreia
    rw [if_neg hguard, hnone]
  · intro c hp hq hfind hlt
    have hguard : ¬ (p = 0 ∨ q = 0 ∨ q ≤ 0) := by
      push_neg
      refine ⟨hp, by omega, by omega⟩
    unfold baixarCorreia
    rw [if_neg hguard, hfind]
    simp only [if_pos hlt]
  · intro hne
    by_cases hg : p = 0 ∨ q = 0 ∨ q ≤ 0
    · unfold baixarCorreia
      rw [if_pos hg]
    · cases hfind : lookupCorreia s p with
      | none =>
        unfold baixarCorreia
        rw [if_neg hg, hfind]
      | some c =>
        by_cases hlt : c.quantidade < q
        · unfold baixarCorreia
          rw [if_neg hg, hfind]
          simp only [if_pos hlt]
        · exfalso
          apply hne
          unfold baixarCorreia
          rw [if_neg hg, hfind]
          simp only [if_neg hlt]

/-- Witness for C2 amended: part id 7 matches no row, so the handler
reports PartNotFound and leaves the store unchanged. -/
theorem C2_amended_errors_witness :
    (baixarCorreia exStoreDebit 1 7 5 "2024-01-05 10:00:00").1
        = DebitResult.partNotFound ∧
    (baixarCorreia exStoreDebit 1 7 5 "2024-01-05 10:00:00").2 = exStoreDebit :=
  ⟨(C2_amended_errors exStoreDebit 1 7 5 "2024-01-05 10:00:00").2.1
      (by decide) (by decide) (by decide),
   (C2_amended_errors exStoreDebit 1 7 5 "2024-01-05 10:00:00").2.2.2
      (by decide)⟩

/-- C8: the administrative edit route updates only the correias table: the
consumption history is identical before and after, for every submitted
name, model, size and quantity. -/
theorem C8_edit_writes_no_history (s : Store) (cid : Int)
    (nome modelo medida : String) (q : Int) :
    (editarCorreia s cid nome modelo medida q).consumo = s.consumo := rfl

/-- C7: saving the associations of equipment e replaces them wholesale:
afterwards the association rows of e are exactly the submitted pairs (in
order, with their submitted quantities), and the rows of every other
equipment are untouched. -/
theorem C7_wholesale_replace (s : Store) (e : Int) (pares : List (Int × Int)) :
    ((salvarAssociacoes s e pares).assocs.filter
        (fun a => decide (a.equipamento_id = e))
      = pares.map (fun par => ⟨e, par.1, par.2⟩)) ∧
    ∀ e2, ¬ e2 = e →
      (salvarAssociacoes s e pares).assocs.filter
          (fun a => decide (a.equipamento_id = e2))
        = s.assocs.filter (fun a => decide (a.equipamento_id = e2)) := by
  constructor
  · unfold salvarAssociacoes
    rw [List.filter_append, List.filter_filter, List.filter_map]
    have h1 : (fun (a : Assoc) =>
        decide (a.equipamento_id = e) && !decide (a.equipamento_id = e))
          = fun _ => false := by
      funext a
      by_cases h : a.equipamento_id = e <;> simp [h]
    have h2 : ((fun (a : Assoc) => decide (a.equipamento_id = e))
          ∘ (fun (par : Int × Int) => (⟨e, par.1, par.2⟩ : Assoc)))
        = fun _ => true := by
      funext par
      simp [Function.comp]
    rw [h1, h2, List.filter_false, List.filter_true, List.nil_append]
  · intro e2 hne
    unfold salvarAssociacoes
    rw [List.filter_append, List.filter_filter, List.filter_map]
    have h1 : (fun (a : Assoc) =>
        decide (a.equipamento_id = e2) && !decide (a.equipamento_id = e))
          = fun (a : Assoc) => decide (a.equipamento_id = e2) := by
      funext a
      by_cases h : a.equipamento_id = e2 <;> by_cases h2 : a.equipamento_id = e <;>
        simp [h, h2, hne, Ne.symm hne]
    have h2 : ((fun (a : Assoc) => decide (a.equipamento_id = e2))
          ∘ (fun (par : Int × Int) => (⟨e, par.1, par.2⟩ : Assoc)))
        = fun _ => false := by
      funext par
      simp [Function.comp]
      exact Ne.symm hne
    rw [h1, h2, List.filter_false, List.map_nil, List.append_nil]

/-- Witness for C7 at a concrete store: replacing the associations of
equipment 1 keeps the single row of equipment 2 intact. -/
theorem C7_wholesale_replace_witness :
    ((salvarAssociacoes exStoreAssoc 1 [(2, 4)]).assocs.filter
        (fun a => decide (a.equipamento_id = 1)) = [⟨1, 2, 4⟩]) ∧
    (salvarAssociacoes exStoreAssoc 1 [(2, 4)]).assocs.filter
        (fun a => decide (a.equipamento_id = 2))
      = exStoreAssoc.assocs.filter (fun a => decide (a.equipamento_id = 2)) :=
  ⟨(C7_wholesale_replace exStoreAssoc 1 [(2, 4)]).1,
   (C7_wholesale_replace exStoreAssoc 1 [(2, 4)]).2 2 (by decide)⟩

/-- C4, evaluated at the failing input: order 1 is already closed (status
fechada, resultado and fechada_em set), yet closing it again does not
fail: the handler runs its unconditional update, overwriting resultado
and fechada_em, and reports its usual redirect. The claimed AlreadyClosed
rejection does not exist in the code. -/
theorem C4_reclose_overwrites :
    (exStoreClosed.ordens.map (fun o => o.status) = ["fechada"]) ∧
    (fecharOrdem exStoreClosed 1 "novo resultado" "2024-02-02 10:00:00").1
        = CloseResult.ok ∧
    (fecharOrdem exStoreClosed 1 "novo resultado" "2024-02-02 10:00:00").2.ordens
      = [⟨1, none, "Maria", "corretiva", "barulho no motor", "fechada",
          "2024-01-01 09:00:00", some "2024-02-02 10:00:00", some "novo resultado"⟩] :=
  ⟨rfl, rfl, by decide⟩

/-- C5 counterexample: with no order rows at all, closing order 1 does not
fail with OrderNotFound: the UPDATE matches zero rows and the handler
still takes its only path, the success redirect, returning the store
unchanged. -/
theorem C5_counterexample :
    exStoreDebit.ordens = [] ∧
    fecharOrdem exStoreDebit 1 "resultado" "2024-02-02 10:00:00"
      = (CloseResult.ok, exStoreDebit) :=
  ⟨rfl, by decide⟩

/-- C5 amended: closing an order id that matches no row is a silent no-op:
the update touches zero rows, the store is returned unchanged, and the
handler reports its single outcome, the success redirect; no OrderNotFound
error path exists in the code. -/
theorem C5_close_missing_noop (s : Store) (oid : Int) (resultado now : String)
    (hmiss : ∀ o ∈ s.ordens, ¬ o.id = oid) :
    fecharOrdem s oid resultado now = (CloseResult.ok, s) := by
  unfold fecharOrdem
  have hmap : s.ordens.map (fun o =>
      if o.id = oid then
        { o with status := "fechada", resultado := some resultado,
                 fechada_em := some now }
      else o) = s.ordens :=
    (List.map_congr_left (fun o ho => by rw [if_neg (hmiss o ho)])).trans
      (List.map_id' s.ordens)
  rw [hmap]

/-- Witness for the C5 amendment at a concrete store with no orders. -/
theorem C5_close_missing_noop_witness :
    fecharOrdem exStoreDebit 7 "resultado" "2024-02-02 10:00:00"
      = (CloseResult.ok, exStoreDebit) :=
  C5_close_missing_noop exStoreDebit 7 "resultado" "2024-02-02 10:00:00"
    (by decide)

/-- C10: a falsy equipamento_id form value (absent field or empty string)
is stored as NULL, not as the empty string; the other submitted fields are
stored as given, status is aberta, and fechada_em and resultado start
NULL. -/
theorem C10_falsy_equipment_null (s : Store) (newId : Int)
    (eid : Option String) (sol tipo desc now : String)
    (hfalsy : eid = none ∨ eid = some "") :
    (criarOrdem s newId eid sol tipo desc now).ordens
      = s.ordens ++ [⟨newId, none, sol, tipo, desc, "aberta", now, none, none⟩] := by
  rcases hfalsy with h | h <;> subst h <;> rfl

/-- Witness for C10: an empty-string equipment reference is stored as
NULL. -/
theorem C10_falsy_equipment_null_witness :
    (criarOrdem exStoreDebit 3 (some "") "Joao" "corretiva" "ruido"
        "2024-01-03 08:00:00").ordens
      = exStoreDebit.ordens ++ [⟨3, none, "Joao", "corretiva", "ruido", "aberta",
          "2024-01-03 08:00:00", none, none⟩] :=
  C10_falsy_equipment_null exStoreDebit 3 (some "") "Joao" "corretiva" "ruido"
    "2024-01-03 08:00:00" (Or.inr rfl)

/-- C3 counterexample: the edit route stores the submitted parsed quantity
verbatim, so a single administrative edit (no debit at all) drives the
stock of part 1 from 10 to -3: the quantity becomes negative and differs
from initial-minus-successful-debits (10 - 0). -/
theorem C3_counterexample :
    lookupCorreia exStoreDebit 1 = some ⟨1, "Correia A", "M1", "50cm", 10⟩ ∧
    lookupCorreia (editarCorreia exStoreDebit 1 "Correia A" "M1" "50cm" (-3)) 1
      = some ⟨1, "Correia A", "M1", "50cm", -3⟩ ∧
    (-3 : Int) < 0 :=
  ⟨by decide, by decide, by decide⟩

/-- C3 amended: restricted to sequences of debit requests (the claim also
quantified over edits and creations, but those store the submitted value
verbatim, which may be negative, as the counterexample shows): starting
from a part with non-negative stock, after any sequence of debit requests
the part still exists, its stock equals the initial stock minus the total
quantity of the successful debits against it, and it is never negative.
Every prefix of a sequence is itself a sequence, so all intermediate
states satisfy the same bound. -/
theorem C3_debits_conserve (ops : List DebitOp) (s : Store) (p : Int)
    (c : Correia) (hfind : lookupCorreia s p = some c) (h0 : 0 ≤ c.quantidade) :
    ∃ c2, lookupCorreia (runDebits s ops) p = some c2 ∧
      c2.quantidade = c.quantidade - debitadoCom s p ops ∧
      0 ≤ c2.quantidade := by
  induction ops generalizing s c with
  | nil => exact ⟨c, hfind, by simp [runDebits, debitadoCom], h0⟩
  | cons op rest ih =>
    have hcase : ∀ res : DebitResult, ¬ res = DebitResult.ok →
        baixarCorreia s op.equipamento op.correia op.quantidade op.data = (res, s) →
        ∃ c2, lookupCorreia (runDebits s (op :: rest)) p = some c2 ∧
          c2.quantidade = c.quantidade - debitadoCom s p (op :: rest) ∧
          0 ≤ c2.quantidade := by
      intro res hres hr
      have hsum : debitadoCom s p (op :: rest) = debitadoCom s p rest := by
        simp [debitadoCom, hr, hres]
      have hrun : runDebits s (op :: rest) = runDebits s rest := by
        simp [runDebits, hr]
      rw [hsum, hrun]
      exact ih s c hfind h0
    by_cases hg : op.correia = 0 ∨ op.quantidade = 0 ∨ op.quantidade ≤ 0
    · exact hcase DebitResult.invalidQuantity (by decide)
        (by unfold baixarCorreia; rw [if_pos hg])
    · cases hl : lookupCorreia s op.correia with
      | none =>
        exact hcase DebitResult.partNotFound (by decide)
          (by unfold baixarCorreia; rw [if_neg hg, hl])
      | some c0 =>
        by_cases hlt : c0.quantidade < op.quantidade
        · exact hcase DebitResult.insufficientStock (by decide)
            (by unfold baixarCorreia; rw [if_neg hg, hl]; simp only [if_pos hlt])
        · have hr : baixarCorreia s op.equipamento op.correia op.quantidade op.data
              = (DebitResult.ok, registrarConsumoCorreia s op.equipamento
                  op.correia op.quantidade op.data) := by
            unfold baixarCorreia
            rw [if_neg hg, hl]
            simp only [if_neg hlt]
          have hrun : runDebits s (op :: rest)
              = runDebits (registrarConsumoCorreia s op.equipamento op.correia
                  op.quantidade op.data) rest := by
            simp [runDebits, hr]
          by_cases hpc : op.correia = p
          · have hceq : c0 = c := by
              rw [hpc] at hl
              rw [hfind] at hl
              exact (Option.some.inj hl).symm
            have hstock : op.quantidade ≤ c.quantidade := not_lt.mp (hceq ▸ hlt)
            have hid : c.id = op.correia := by
              rw [hpc]
              exact lookupCorreia_id s p c hfind
            have hlook2 : lookupCorreia (registrarConsumoCorreia s op.equipamento
                  op.correia op.quantidade op.data) p
                = some { c with quantidade := c.quantidade - op.quantidade } := by
              rw [lookupCorreia_registrar, hfind, Option.map_some', if_pos hid]
            have hrec := ih (registrarConsumoCorreia s op.equipamento op.correia
                op.quantidade op.data)
              { c with quantidade := c.quantidade - op.quantidade } hlook2
              (by show 0 ≤ c.quantidade - op.quantidade; omega)
            obtain ⟨c2, hc2look, hc2eq, hc2pos⟩ := hrec
            refine ⟨c2, by rw [hrun]; exact hc2look, ?_, hc2pos⟩
            have hsum : debitadoCom s p (op :: rest)
                = op.quantidade + debitadoCom (registrarConsumoCorreia s
                    op.equipamento op.correia op.quantidade op.data) p rest := by
              simp only [debitadoCom, hr]
              simp [hpc]
            rw [hsum, hc2eq]
            show c.quantidade - op.quantidade
                - debitadoCom (registrarConsumoCorreia s op.equipamento op.correia
                    op.quantidade op.data) p rest
              = c.quantidade - (op.quantidade
                  + debitadoCom (registrarConsumoCorreia s op.equipamento op.correia
                      op.quantidade op.data) p rest)
            ring
          · have hid2 : ¬ c.id = op.correia := by
              rw [lookupCorreia_id s p c hfind]
              exact fun hh => hpc hh.symm
            have hlook2 : lookupCorreia (registrarConsumoCorreia s op.equipamento
                  op.correia op.quantidade op.data) p = some c := by
              rw [lookupCorreia_registrar, hfind, Option.map_some', if_neg hid2]
            have hsum : debitadoCom s p (op :: rest)
                = debitadoCom (registrarConsumoCorreia s op.equipamento op.correia
                    op.quantidade op.data) p rest := by
              simp [debitadoCom, hr, hpc]
            rw [hrun, hsum]
            exact ih _ c hlook2 h0

/-- Witness for the C3 amendment: from ten units, a successful debit of
four, a failed debit of ten (insufficient) and a successful debit of one
leave five units, never negative. -/
theorem C3_debits_conserve_witness :
    ∃ c2, lookupCorreia (runDebits exStoreDebit
        [⟨1, 1, 4, "2024-01-05 10:00:00"⟩, ⟨1, 1, 10, "2024-01-06 10:00:00"⟩,
         ⟨2, 1, 1, "2024-01-07 10:00:00"⟩]) 1 = some c2 ∧
      c2.quantidade = 10 - debitadoCom exStoreDebit 1
        [⟨1, 1, 4, "2024-01-05 10:00:00"⟩, ⟨1, 1, 10, "2024-01-06 10:00:00"⟩,
         ⟨2, 1, 1, "2024-01-07 10:00:00"⟩] ∧
      0 ≤ c2.quantidade :=
  C3_debits_conserve
    [⟨1, 1, 4, "2024-01-05 10:00:00"⟩, ⟨1, 1, 10, "2024-01-06 10:00:00"⟩,
     ⟨2, 1, 1, "2024-01-07 10:00:00"⟩]
    exStoreDebit 1 ⟨1, "Correia A", "M1", "50cm", 10⟩ (by decide) (by decide)

/-- Unfolding of the monthly report definition. -/
theorem relatorioMensal_eq (s : Store) (mes : String) :
    relatorioMensal s mes
      = (List.insertionSort keyLe
            (((s.consumo.filter (fun r => decide (monthOf r.data = mes))).map
              (fun r => reportKey s r)).dedup)).map
          (fun k => ⟨k.1, k.2,
            sumQuantidade ((s.consumo.filter
                (fun r => decide (monthOf r.data = mes))).filter
              (fun r => decide (reportKey s r = k)))⟩) := rfl

/-- C6 counterexample: the SQL groups by the SELECT aliases equipamento
and correia, i.e. by display names, not by (equipment, part) pairs.
Equipments 1 and 2 share the name Prensa and each has a January record
for part 1 (quantities 2 and 3) — two distinct (equipment, part) pairs —
yet the January report has a single row with total 5 instead of one row
per pair. The February record is correctly excluded. -/
theorem C6_counterexample :
    (exStoreReport.consumo.filter
        (fun r => decide (monthOf r.data = "2024-01"))).map
        (fun r => (r.equipamento_id, r.correia_id)) = [(1, 1), (2, 1)] ∧
    relatorioMensal exStoreReport "2024-01"
      = [⟨some "Prensa", some "Correia A", 5⟩] :=
  ⟨by decide, by decide⟩

/-- C6 amended: the monthly report is a pure function of the store. Its
rows are keyed by the pair of left-joined display names (equipment name,
part name), with NULL for a missing referent: the key list is sorted by
equipment name then part name (NULLs first), has no duplicate, and
contains exactly the name pairs of the records whose timestamp falls in
the requested month; each row totals the quantities of precisely the
records of that month carrying that name pair, so records of other months
contribute to no row. -/
theorem C6_amended_report (s : Store) (mes : String) :
    List.Sorted keyLe ((relatorioMensal s mes).map
        (fun row => (row.equipamento, row.correia))) ∧
    ((relatorioMensal s mes).map (fun row => (row.equipamento, row.correia))).Nodup ∧
    (∀ k : Option String × Option String,
      k ∈ (relatorioMensal s mes).map (fun row => (row.equipamento, row.correia))
        ↔ ∃ r ∈ s.consumo, monthOf r.data = mes ∧ reportKey s r = k) ∧
    (∀ row ∈ relatorioMensal s mes,
      row.total = sumQuantidade (s.consumo.filter (fun r =>
        decide (reportKey s r = (row.equipamento, row.correia))
          && decide (monthOf r.data = mes)))) := by
  have hkeys : (relatorioMensal s mes).map (fun row => (row.equipamento, row.correia))
      = List.insertionSort keyLe
          (((s.consumo.filter (fun r => decide (monthOf r.data = mes))).map
            (fun r => reportKey s r)).dedup) := by
    rw [relatorioMensal_eq, List.map_map]
    exact List.map_id' _
  refine ⟨?_, ?_, ?_, ?_⟩
  · rw [hkeys]
    exact List.sorted_insertionSort keyLe _
  · rw [hkeys]
    exact ((List.perm_insertionSort keyLe _).nodup_iff).mpr (List.nodup_dedup _)
  · intro k
    rw [hkeys]
    constructor
    · intro hk
      have hk2 := (List.perm_insertionSort keyLe _).mem_iff.mp hk
      rw [List.mem_dedup] at hk2
      obtain ⟨r, hr, hrk⟩ := List.mem_map.mp hk2
      rw [List.mem_filter] at hr
      exact ⟨r, hr.1, of_decide_eq_true hr.2, hrk⟩
    · rintro ⟨r, hr, hm, hrk⟩
      apply (List.perm_insertionSort keyLe _).mem_iff.mpr
      rw [List.mem_dedup]
      exact List.mem_map.mpr ⟨r, List.mem_filter.mpr ⟨hr, decide_eq_true hm⟩, hrk⟩
  · intro row hrow
    rw [relatorioMensal_eq] at hrow
    obtain ⟨k, hk, hmk⟩ := List.mem_map.mp hrow
    subst hmk
    show sumQuantidade ((s.consumo.filter
          (fun r => decide (monthOf r.data = mes))).filter
        (fun r => decide (reportKey s r = k)))
      = sumQuantidade (s.consumo.filter (fun r =>
          decide (reportKey s r = k) && decide (monthOf r.data = mes)))
    rw [List.filter_filter]

/-- Witness for the C6 amendment: the single January row of the concrete
store totals exactly the January records carrying its name pair. -/
theorem C6_amended_report_witness :
    (⟨some "Prensa", some "Correia A", 5⟩ : RelRow).total
      = sumQuantidade (exStoreReport.consumo.filter (fun r =>
          decide (reportKey exStoreReport r = (some "Prensa", some "Correia A"))
            && decide (monthOf r.data = "2024-01"))) :=
  (C6_amended_report exStoreReport "2024-01").2.2.2
    ⟨some "Prensa", some "Correia A", 5⟩ (by decide)

end Manutencao
